import Mathlib

/-!
Shallow embedding of the control endpoint of the amused music daemon
(control.c) together with spec-modelled stubs for the collaborators that
live in other compilation units (playlist.c, amused.c, ev.c).

The embedding is a state-passing translation: the C globals
(`control_state`, `playlist`, `play_state`, the mode flags, the position
counters and the connection table `ctl_conns`) become fields of
`ServerState`; every side effect that leaves the process (an
`imsg_compose_event` on a client connection, a `main_send_player` to the
worker) becomes an element of an output list.
-/

namespace Amused

/-- The play-state enum {STATE_STOPPED, STATE_PLAYING, STATE_PAUSED}. -/
inductive PlayState
  | STATE_STOPPED
  | STATE_PLAYING
  | STATE_PAUSED
deriving DecidableEq, Repr

/-- Modelled from the spec: the tri-state mode request constants of
amused.h (not among the sources). `Leave` is `MODE_UNDEF`; the merge in
`new_mode` checks it first. -/
def MODE_UNDEF : Int := -1

/-- Modelled from the spec: the `Toggle` request constant of amused.h
(not among the sources). -/
def MODE_TOGGLE : Int := 2

/-- struct player_mode: the three tri-state mode requests (also used for
the three current boolean modes). -/
structure PlayerMode where
  repeat_one : Int
  repeat_all : Int
  consume : Int
deriving DecidableEq, Repr

/-- struct player_seek: the seek request payload. -/
structure PlayerSeek where
  offset : Int
  relative : Int
  percent : Int
deriving DecidableEq, Repr

/-- The message types dispatched by `control_dispatch_imsg`; `OTHER`
stands for every type that falls into the `default:` arm of the switch. -/
inductive ImsgType
  | IMSG_CTL_PLAY
  | IMSG_CTL_TOGGLE_PLAY
  | IMSG_CTL_PAUSE
  | IMSG_CTL_STOP
  | IMSG_CTL_FLUSH
  | IMSG_CTL_SHOW
  | IMSG_CTL_STATUS
  | IMSG_CTL_NEXT
  | IMSG_CTL_PREV
  | IMSG_CTL_JUMP
  | IMSG_CTL_MODE
  | IMSG_CTL_BEGIN
  | IMSG_CTL_ADD
  | IMSG_CTL_COMMIT
  | IMSG_CTL_MONITOR
  | IMSG_CTL_SEEK
  | OTHER (n : Nat)
deriving DecidableEq, Repr

/-- The payload bytes of a frame, already classified by size: the C
structs `player_mode` (12 bytes), `player_seek` (16 bytes), `ssize_t`
(8 bytes) and a NUL-terminated path buffer all have distinct sizes, so a
payload decodes to at most one of them; `other n` is a payload of `n`
bytes matching none of the expected struct sizes, and `empty` is a
zero-length payload. -/
inductive Payload
  | empty
  | mode (m : PlayerMode)
  | seek (sk : PlayerSeek)
  | off (o : Int)
  | path (p : String)
  | other (n : Nat)
deriving DecidableEq, Repr

/-- One received frame: its header type and its payload. -/
structure Imsg where
  type : ImsgType
  data : Payload
deriving DecidableEq, Repr

/-- struct player_event: the monitor-notification payload composed by
`control_notify`. -/
structure PlayerEvent where
  event : ImsgType
  position : Int
  duration : Int
  mode : PlayerMode
deriving DecidableEq, Repr

/-- Frames sent to the player worker by `main_send_player` / `main_seek`. -/
inductive PlayerMsg
  | IMSG_PLAY
  | IMSG_PAUSE
  | IMSG_RESUME
  | IMSG_STOP
  | seekTo (sk : PlayerSeek)
deriving DecidableEq, Repr

/-- An observable side effect of a dispatch step: a frame composed on a
client connection (`reply`), an error frame from `main_senderr`
(`errmsg`), a monitor notification (`monitorEvt`), or a frame to the
player worker (`toPlayer`). -/
inductive Output
  | reply (fd : Int) (t : ImsgType) (data : Payload)
  | errmsg (fd : Int) (msg : String)
  | monitorEvt (fd : Int) (ev : PlayerEvent)
  | toPlayer (pm : PlayerMsg)
deriving DecidableEq, Repr

/-- struct ctl_conn: one client connection, identified by its fd, with
its monitor flag. -/
structure CtlConn where
  fd : Int
  monitor : Bool
deriving DecidableEq, Repr

/-- The `control_state` global of control.c: the fd of the transaction
owner (`-1` = no transaction) and the transaction's scratch playlist. -/
structure ControlState where
  tx : Int
  play : List String
deriving DecidableEq, Repr

/-- All the main-process state touched by control.c: the connection
table `ctl_conns`, `control_state`, the live playlist with its cursor,
the play state, the three mode flags and the position counters. -/
structure ServerState where
  conns : List CtlConn
  control : ControlState
  playlist : List String
  play_off : Int
  play_state : PlayState
  repeat_one : Int
  repeat_all : Int
  consume : Int
  current_position : Int
  current_duration : Int
deriving DecidableEq, Repr

/-- C logical negation `!v` on an int. -/
def cnot (v : Int) : Int := if v = 0 then 1 else 0

/-- C double negation `!!v` on an int. -/
def cbool (v : Int) : Int := if v = 0 then 0 else 1

/-- new_mode from control.c: merge one mode field with one tri-state
request. `MODE_UNDEF` keeps the old value, `MODE_TOGGLE` flips it, and
anything else is normalised with `!!`. -/
def new_mode (val newval : Int) : Int :=
  if newval = MODE_UNDEF then val
  else if newval = MODE_TOGGLE then cnot val
  else cbool newval

/-- control_connbyfd from control.c: first connection in the table with
the given fd. -/
def control_connbyfd (l : List CtlConn) (fd : Int) : Option CtlConn :=
  l.find? (fun c => c.fd = fd)

/-- The `c->monitor = 1` assignment of the IMSG_CTL_MONITOR arm: set the
monitor flag on the connection node found by fd (the first match, as
`control_connbyfd` returns it). -/
def set_monitor : List CtlConn → Int → List CtlConn
  | [], _ => []
  | c :: rest, fd =>
      if c.fd = fd then { c with monitor := true } :: rest
      else c :: set_monitor rest fd

/-- The player_event composed by `control_notify`: the event type with
the current position, duration and the three mode flags. -/
def mk_player_event (s : ServerState) (t : ImsgType) : PlayerEvent :=
  { event := t
    position := s.current_position
    duration := s.current_duration
    mode := { repeat_one := s.repeat_one
              repeat_all := s.repeat_all
              consume := s.consume } }

/-- control_notify from control.c: compose one IMSG_CTL_MONITOR frame
carrying the player_event on every connection whose monitor flag is set,
skipping the others. -/
def control_notify (s : ServerState) (t : ImsgType) : List Output :=
  (s.conns.filter (fun c => c.monitor)).map
    (fun c => Output.monitorEvt c.fd (mk_player_event s t))

/-- main_senderr from amused.c (not among the sources); the spec calls
it "returned as an Error frame on the originating connection". -/
def main_senderr (fd : Int) (msg : String) : List Output :=
  [Output.errmsg fd msg]

/-- Modelled from the spec: `playlist_free` (playlist.c, not among the
sources) drops every entry of the given playlist. -/
def playlist_free (_pl : List String) : List String := []

/-- Modelled from the spec: `playlist_swap` (playlist.c, not among the
sources) splices the transaction scratch into the live playlist "at
`offset` semantics (negative = append, non-negative =
replace-from-index)". -/
def playlist_swap (live scratch : List String) (off : Int) : List String :=
  if off < 0 then live ++ scratch
  else live.take off.toNat ++ scratch

/-- Modelled from the spec: `playlist_truncate` (playlist.c, not among
the sources), used by Flush: "truncate playlist past cursor". Entries
after the cursor are dropped. -/
def playlist_truncate (s : ServerState) : ServerState :=
  { s with playlist := s.playlist.take (s.play_off + 1).toNat }

/-- Modelled from the spec: `main_playlist_resume` (amused.c, not among
the sources): "If Stopped: resume playlist (send Play+fd to worker,
cursor 0 or current)". On an empty playlist nothing starts. -/
def main_playlist_resume (s : ServerState) : ServerState × List Output :=
  if s.playlist = [] then (s, [])
  else
    let off := if s.play_off < 0 then 0 else s.play_off
    ({ s with play_off := off, play_state := PlayState.STATE_PLAYING },
     [Output.toPlayer PlayerMsg.IMSG_PLAY])

/-- Modelled from the spec: `main_playlist_advance` (amused.c, not among
the sources): advance the cursor; past the end, wrap to 0 when
`repeat_all` is set, else transition to Stopped. -/
def main_playlist_advance (s : ServerState) : ServerState × List Output :=
  let off := s.play_off + 1
  if off < s.playlist.length then
    ({ s with play_off := off, play_state := PlayState.STATE_PLAYING },
     [Output.toPlayer PlayerMsg.IMSG_PLAY])
  else if s.repeat_all ≠ 0 ∧ s.playlist ≠ [] then
    ({ s with play_off := 0, play_state := PlayState.STATE_PLAYING },
     [Output.toPlayer PlayerMsg.IMSG_PLAY])
  else
    ({ s with play_state := PlayState.STATE_STOPPED }, [])

/-- Modelled from the spec: `main_playlist_previous` (amused.c, not
among the sources): "Cursor−−, clamped at 0 (no wrap even with
repeat_all)." -/
def main_playlist_previous (s : ServerState) : ServerState × List Output :=
  if s.playlist = [] then
    ({ s with play_state := PlayState.STATE_STOPPED }, [])
  else
    let off := if s.play_off - 1 < 0 then 0 else s.play_off - 1
    ({ s with play_off := off, play_state := PlayState.STATE_PLAYING },
     [Output.toPlayer PlayerMsg.IMSG_PLAY])

/-- Modelled from the spec: `main_send_playlist` (amused.c, not among
the sources): "Stream playlist entries back as individual frames,
terminated by an empty frame." -/
def main_send_playlist (s : ServerState) (fd : Int) : List Output :=
  s.playlist.map (fun p => Output.reply fd ImsgType.IMSG_CTL_SHOW (Payload.path p))
    ++ [Output.reply fd ImsgType.IMSG_CTL_SHOW Payload.empty]

/-- Modelled from the spec: `main_send_status` (amused.c, not among the
sources): "Reply with one frame carrying current track, position,
duration, state, modes" (payload abstracted to the status frame). -/
def main_send_status (_s : ServerState) (fd : Int) : List Output :=
  [Output.reply fd ImsgType.IMSG_CTL_STATUS Payload.empty]

/-- Modelled from the spec: `main_playlist_jump` (amused.c, not among
the sources): "Set cursor to the index matching target string (exact
path match); if found, restart playback", error reply otherwise. -/
def main_playlist_jump (s : ServerState) (fd : Int) (m : Imsg) :
    ServerState × List Output :=
  match m.data with
  | Payload.path p =>
      match s.playlist.indexOf? p with
      | some i =>
          ({ s with play_off := (i : Int), play_state := PlayState.STATE_PLAYING },
           [Output.toPlayer PlayerMsg.IMSG_STOP, Output.toPlayer PlayerMsg.IMSG_PLAY])
      | none => (s, main_senderr fd "not found")
  | _ => (s, main_senderr fd "wrong size")

/-- Modelled from the spec: `main_seek` (amused.c, not among the
sources): "Forward to worker as Seek message." -/
def main_seek (sk : PlayerSeek) : List Output :=
  [Output.toPlayer (PlayerMsg.seekTo sk)]

/-- Modelled from the spec: `main_enqueue` (amused.c, not among the
sources): "If a transaction is open: append path to transaction scratch
…; else append directly to live playlist"; the path is echoed back as
the Add acknowledgement, and a payload that is not a well-formed path
buffer gets an error reply. -/
def main_enqueue (tx : Bool) (s : ServerState) (fd : Int) (m : Imsg) :
    ServerState × List Output :=
  match m.data with
  | Payload.path p =>
      if tx then
        ({ s with control := { s.control with play := s.control.play ++ [p] } },
         [Output.reply fd ImsgType.IMSG_CTL_ADD (Payload.path p)])
      else
        ({ s with playlist := s.playlist ++ [p] },
         [Output.reply fd ImsgType.IMSG_CTL_ADD (Payload.path p)])
  | _ => (s, main_senderr fd "bad path")

/-- control_close from control.c: look the connection up by fd (warn and
return when absent); when it owns the open transaction, free the scratch
playlist and reset `control_state.tx`; then remove the node from the
connection table. (The fd-level teardown — `msgbuf_clear`, `ev_del`,
`close`, and the re-arming of the paused listener — acts on resources
outside this state and is modelled with the event core below.) -/
def control_close (s : ServerState) (fd : Int) : ServerState :=
  match control_connbyfd s.conns fd with
  | none => s
  | some c =>
      let s1 :=
        if s.control.tx ≠ -1 ∧ c.fd = s.control.tx then
          { s with control := { tx := -1, play := playlist_free s.control.play } }
        else s
      { s1 with conns := s1.conns.eraseP (fun x => x.fd = fd) }

/-- One arm of the `switch (imsg.hdr.type)` of control_dispatch_imsg in
control.c, for the connection `c` on which the frame `m` arrived.
Returns the new state and the composed output frames in order. -/
def control_dispatch_one (s : ServerState) (c : CtlConn) (m : Imsg) :
    ServerState × List Output :=
  match m.type with
  | ImsgType.IMSG_CTL_PLAY =>
      let r :=
        match s.play_state with
        | PlayState.STATE_STOPPED => main_playlist_resume s
        | PlayState.STATE_PLAYING => (s, [])
        | PlayState.STATE_PAUSED =>
            ({ s with play_state := PlayState.STATE_PLAYING },
             [Output.toPlayer PlayerMsg.IMSG_RESUME])
      (r.1, r.2 ++ control_notify r.1 ImsgType.IMSG_CTL_PLAY)
  | ImsgType.IMSG_CTL_TOGGLE_PLAY =>
      match s.play_state with
      | PlayState.STATE_STOPPED =>
          let out := control_notify s ImsgType.IMSG_CTL_PLAY
          let r := main_playlist_resume s
          (r.1, out ++ r.2)
      | PlayState.STATE_PLAYING =>
          let out := control_notify s ImsgType.IMSG_CTL_PAUSE
          ({ s with play_state := PlayState.STATE_PAUSED },
           out ++ [Output.toPlayer PlayerMsg.IMSG_PAUSE])
      | PlayState.STATE_PAUSED =>
          let out := control_notify s ImsgType.IMSG_CTL_PLAY
          ({ s with play_state := PlayState.STATE_PLAYING },
           out ++ [Output.toPlayer PlayerMsg.IMSG_RESUME])
  | ImsgType.IMSG_CTL_PAUSE =>
      if s.play_state ≠ PlayState.STATE_PLAYING then (s, [])
      else
        let s1 := { s with play_state := PlayState.STATE_PAUSED }
        (s1, Output.toPlayer PlayerMsg.IMSG_PAUSE ::
             control_notify s1 ImsgType.IMSG_CTL_PAUSE)
  | ImsgType.IMSG_CTL_STOP =>
      if s.play_state = PlayState.STATE_STOPPED then (s, [])
      else
        let s1 := { s with play_state := PlayState.STATE_STOPPED }
        (s1, Output.toPlayer PlayerMsg.IMSG_STOP ::
             control_notify s1 ImsgType.IMSG_CTL_STOP)
  | ImsgType.IMSG_CTL_FLUSH =>
      let s1 := playlist_truncate s
      (s1, control_notify s1 ImsgType.IMSG_CTL_COMMIT)
  | ImsgType.IMSG_CTL_SHOW => (s, main_send_playlist s c.fd)
  | ImsgType.IMSG_CTL_STATUS => (s, main_send_status s c.fd)
  | ImsgType.IMSG_CTL_NEXT =>
      let out := control_notify s ImsgType.IMSG_CTL_NEXT
      let r := main_playlist_advance s
      (r.1, out ++ Output.toPlayer PlayerMsg.IMSG_STOP :: r.2)
  | ImsgType.IMSG_CTL_PREV =>
      let out := control_notify s ImsgType.IMSG_CTL_PREV
      let r := main_playlist_previous s
      (r.1, out ++ Output.toPlayer PlayerMsg.IMSG_STOP :: r.2)
  | ImsgType.IMSG_CTL_JUMP => main_playlist_jump s c.fd m
  | ImsgType.IMSG_CTL_MODE =>
      match m.data with
      | Payload.mode md =>
          let s1 := { s with
            consume := new_mode s.consume md.consume
            repeat_all := new_mode s.repeat_all md.repeat_all
            repeat_one := new_mode s.repeat_one md.repeat_one }
          (s1, control_notify s1 ImsgType.IMSG_CTL_MODE)
      | _ => (s, [])
  | ImsgType.IMSG_CTL_BEGIN =>
      if s.control.tx ≠ -1 then (s, main_senderr c.fd "locked")
      else
        ({ s with control := { s.control with tx := c.fd } },
         [Output.reply c.fd ImsgType.IMSG_CTL_BEGIN Payload.empty])
  | ImsgType.IMSG_CTL_ADD =>
      if s.control.tx ≠ -1 ∧ s.control.tx ≠ c.fd then
        (s, main_senderr c.fd "locked")
      else
        let r := main_enqueue (s.control.tx ≠ -1) s c.fd m
        if s.control.tx = -1 then
          (r.1, r.2 ++ control_notify r.1 ImsgType.IMSG_CTL_ADD)
        else (r.1, r.2)
  | ImsgType.IMSG_CTL_COMMIT =>
      if s.control.tx ≠ c.fd then (s, main_senderr c.fd "locked")
      else
        match m.data with
        | Payload.off o =>
            let s1 := { s with
              playlist := playlist_swap s.playlist s.control.play o
              control := { tx := -1, play := [] } }
            (s1, Output.reply c.fd ImsgType.IMSG_CTL_COMMIT Payload.empty ::
                 control_notify s1 ImsgType.IMSG_CTL_COMMIT)
        | _ => (s, main_senderr c.fd "wrong size")
  | ImsgType.IMSG_CTL_MONITOR =>
      ({ s with conns := set_monitor s.conns c.fd }, [])
  | ImsgType.IMSG_CTL_SEEK =>
      match m.data with
      | Payload.seek sk => (s, main_seek sk)
      | _ => (s, main_senderr c.fd "wrong size")
  | ImsgType.OTHER _ => (s, [])

/-- The timer callbacks used by control.c; only `enable_accept` is ever
armed. -/
inductive THandler
  | enableAcceptH
deriving DecidableEq, Repr

/-- Modelled from the spec: the event core (ev.c, not among the
sources): "Registers fds with interest sets {read, write}; dispatches
ready fds to handlers; supports one-shot timers." We track the set of
fds registered for reading and the single pending one-shot timer with
its timeout (seconds, microseconds). -/
structure EvState where
  registered : List Int
  timer : Option (Int × Int × THandler)
deriving DecidableEq, Repr

/-- Modelled from the spec: `ev_add` (ev.c, not among the sources)
registers an fd for reading. -/
def ev_add (st : EvState) (fd : Int) : EvState :=
  if fd ∈ st.registered then st
  else { st with registered := st.registered ++ [fd] }

/-- Modelled from the spec: `ev_del` (ev.c, not among the sources)
detaches an fd from the readable set. -/
def ev_del (st : EvState) (fd : Int) : EvState :=
  { st with registered := st.registered.filter (fun x => x ≠ fd) }

/-- Modelled from the spec: `ev_timer` (ev.c, not among the sources)
arms the one-shot timer with the given timeout and handler. -/
def ev_timer_set (st : EvState) (sec usec : Int) (h : THandler) : EvState :=
  { st with timer := some (sec, usec, h) }

/-- enable_accept from control.c: re-attach the listening fd
(`control_state.fd`, here `csfd`) to the readable set. -/
def enable_accept (csfd : Int) (st : EvState) : EvState :=
  ev_add st csfd

/-- The outcome of the `accept4` call in control_accept: a new
connection fd, the out-of-file-descriptors errors ENFILE/EMFILE, one of
the ignored transient errors (EWOULDBLOCK, EINTR, ECONNABORTED), or any
other error (logged only). -/
inductive AcceptResult
  | ok (connfd : Int)
  | ENFILE_EMFILE
  | transientErr
  | otherErr
deriving DecidableEq, Repr

/-- control_accept from control.c: on ENFILE/EMFILE, detach the
listening fd and arm a 1-second timer firing `enable_accept`; on other
errors, return without touching anything; on success, allocate a
connection record, register its fd for reading and append it to the
connection table. No output frame is composed on any path. -/
def control_accept (csfd : Int) (st : EvState) (conns : List CtlConn)
    (r : AcceptResult) : EvState × List CtlConn × List Output :=
  match r with
  | AcceptResult.ok connfd =>
      (ev_add st connfd, conns ++ [{ fd := connfd, monitor := false }], [])
  | AcceptResult.ENFILE_EMFILE =>
      (ev_timer_set (ev_del st csfd) 1 0 THandler.enableAcceptH, conns, [])
  | AcceptResult.transientErr => (st, conns, [])
  | AcceptResult.otherErr => (st, conns, [])

/-- Firing of the pending one-shot timer by the event core: the timer is
cleared and its handler runs (`enable_accept` re-attaches the listening
fd). -/
def ev_timer_fire (csfd : Int) (st : EvState) : EvState :=
  match st.timer with
  | some (_, _, THandler.enableAcceptH) => enable_accept csfd { st with timer := none }
  | none => st

/-- What the event loop delivers for one connection readiness: a read
failure (`imsg_read` returning -1 without EAGAIN, or EOF), a framing
failure (`imsg_get` returning -1), or one complete frame. -/
inductive ReadEvent
  | readFailed
  | malformed
  | frame (m : Imsg)
deriving DecidableEq, Repr

/-- control_dispatch_imsg from control.c, for one delivered event on fd:
look the connection up (warn and return when absent); a read or framing
failure closes the connection via `control_close`; a complete frame is
dispatched through the switch. -/
def control_dispatch_imsg (s : ServerState) (fd : Int) (ev : ReadEvent) :
    ServerState × List Output :=
  match control_connbyfd s.conns fd with
  | none => (s, [])
  | some c =>
      match ev with
      | ReadEvent.readFailed => (control_close s fd, [])
      | ReadEvent.malformed => (control_close s fd, [])
      | ReadEvent.frame m => control_dispatch_one s c m

/-! ### Sample values used by the concrete witnesses -/

/-- A connection with fd 3, not monitoring. -/
def sampleConn : CtlConn := { fd := 3, monitor := false }

/-- A connection with fd 4, monitoring. -/
def sampleConn2 : CtlConn := { fd := 4, monitor := true }

/-- A server state with two connections and no open transaction. -/
def sampleState : ServerState :=
  { conns := [sampleConn, sampleConn2]
    control := { tx := -1, play := [] }
    playlist := ["/a.ogg", "/b.ogg"]
    play_off := 0
    play_state := PlayState.STATE_PLAYING
    repeat_one := 0
    repeat_all := 0
    consume := 0
    current_position := 10
    current_duration := 60 }

/-- `sampleState` with a transaction open, owned by fd 3, with one
pending addition in the scratch playlist. -/
def txState : ServerState :=
  { sampleState with control := { tx := 3, play := ["/x.ogg"] } }

/-! ### Claim theorems -/

/-- C1: at most one transaction is open and it is owned by one
connection: Begin succeeds (owner set to the requesting fd, Begin-ack
composed) exactly when no transaction is open, Begin fails with "locked"
when one is open, and while a transaction is open any Begin, Add or
Commit from a connection other than the owner yields the "locked" error
with the whole state — in particular the owner and the scratch
playlist — unchanged. -/
theorem C1_transaction_exclusive (s : ServerState) (c : CtlConn) (d : Payload) :
    (s.control.tx = -1 →
      control_dispatch_one s c { type := ImsgType.IMSG_CTL_BEGIN, data := d } =
        ({ s with control := { s.control with tx := c.fd } },
         [Output.reply c.fd ImsgType.IMSG_CTL_BEGIN Payload.empty])) ∧
    (s.control.tx ≠ -1 →
      control_dispatch_one s c { type := ImsgType.IMSG_CTL_BEGIN, data := d } =
        (s, [Output.errmsg c.fd "locked"])) ∧
    (s.control.tx ≠ -1 → c.fd ≠ s.control.tx →
      control_dispatch_one s c { type := ImsgType.IMSG_CTL_ADD, data := d } =
        (s, [Output.errmsg c.fd "locked"]) ∧
      control_dispatch_one s c { type := ImsgType.IMSG_CTL_COMMIT, data := d } =
        (s, [Output.errmsg c.fd "locked"])) := by
  refine ⟨fun h => ?_, fun h => ?_, fun h h2 => ⟨?_, ?_⟩⟩
  · simp [control_dispatch_one, h]
  · simp [control_dispatch_one, main_senderr, h]
  · simp [control_dispatch_one, main_senderr, h, Ne.symm h2]
  · simp [control_dispatch_one, main_senderr, Ne.symm h2]

/-- Witness for C1 at concrete states: a Begin with no transaction open
succeeds and sets the owner to fd 3; with a transaction owned by fd 3,
an Add and a Commit from fd 4 both get "locked" and leave the state
unchanged. -/
theorem C1_transaction_exclusive_witness :
    control_dispatch_one sampleState sampleConn
        { type := ImsgType.IMSG_CTL_BEGIN, data := Payload.empty } =
      ({ sampleState with control := { sampleState.control with tx := sampleConn.fd } },
       [Output.reply sampleConn.fd ImsgType.IMSG_CTL_BEGIN Payload.empty]) ∧
    control_dispatch_one txState sampleConn2
        { type := ImsgType.IMSG_CTL_ADD, data := Payload.path "/y.ogg" } =
      (txState, [Output.errmsg sampleConn2.fd "locked"]) ∧
    control_dispatch_one txState sampleConn2
        { type := ImsgType.IMSG_CTL_COMMIT, data := Payload.off (-1) } =
      (txState, [Output.errmsg sampleConn2.fd "locked"]) := by
  refine ⟨?_, ?_, ?_⟩
  · exact (C1_transaction_exclusive sampleState sampleConn Payload.empty).1 (by decide)
  · exact ((C1_transaction_exclusive txState sampleConn2 (Payload.path "/y.ogg")).2.2
      (by decide) (by decide)).1
  · exact ((C1_transaction_exclusive txState sampleConn2 (Payload.off (-1))).2.2
      (by decide) (by decide)).2

/-- C10: Begin is not reentrant: while a transaction is open, a Begin
from any connection — the current owner included — gets the "locked"
error, and the state (so the owner and the scratch playlist) is
unchanged. -/
theorem C10_begin_not_reentrant (s : ServerState) (c : CtlConn) (d : Payload)
    (h : s.control.tx ≠ -1) :
    control_dispatch_one s c { type := ImsgType.IMSG_CTL_BEGIN, data := d } =
      (s, [Output.errmsg c.fd "locked"]) := by
  simp [control_dispatch_one, main_senderr, h]

/-- Witness for C10 at the owner itself: with the transaction owned by
fd 3, a Begin from fd 3 gets "locked" and changes nothing. -/
theorem C10_begin_not_reentrant_witness :
    control_dispatch_one txState sampleConn
        { type := ImsgType.IMSG_CTL_BEGIN, data := Payload.empty } =
      (txState, [Output.errmsg sampleConn.fd "locked"]) :=
  C10_begin_not_reentrant txState sampleConn Payload.empty (by decide)

/-- Whether a payload has exactly the size of the Commit offset
(`sizeof(ssize_t)`), i.e. decodes as an offset. -/
def is_off_payload : Payload → Bool
  | Payload.off _ => true
  | _ => false

/-- C5: transactional errors are atomic: a Begin, Add or Commit that
fails with "locked", and a Commit from the owner whose payload is not
offset-sized failing with "wrong size", each compose exactly one Error
frame on the originating connection and leave the state — in particular
the transaction owner and scratch playlist — exactly as it was. -/
theorem C5_tx_errors_atomic (s : ServerState) (c : CtlConn) (d : Payload) :
    (s.control.tx ≠ -1 →
      control_dispatch_one s c { type := ImsgType.IMSG_CTL_BEGIN, data := d } =
        (s, [Output.errmsg c.fd "locked"])) ∧
    (s.control.tx ≠ -1 → s.control.tx ≠ c.fd →
      control_dispatch_one s c { type := ImsgType.IMSG_CTL_ADD, data := d } =
        (s, [Output.errmsg c.fd "locked"])) ∧
    (s.control.tx ≠ c.fd →
      control_dispatch_one s c { type := ImsgType.IMSG_CTL_COMMIT, data := d } =
        (s, [Output.errmsg c.fd "locked"])) ∧
    (s.control.tx = c.fd → is_off_payload d = false →
      control_dispatch_one s c { type := ImsgType.IMSG_CTL_COMMIT, data := d } =
        (s, [Output.errmsg c.fd "wrong size"])) := by
  refine ⟨fun h => ?_, fun h h2 => ?_, fun h => ?_, fun h hd => ?_⟩
  · simp [control_dispatch_one, main_senderr, h]
  · simp [control_dispatch_one, main_senderr, h, h2]
  · simp [control_dispatch_one, main_senderr, h]
  · cases d <;> simp_all [control_dispatch_one, main_senderr, is_off_payload]

/-- Witness for C5: with the transaction owned by fd 3, a Begin from
fd 4 gets "locked", and a Commit from the owner fd 3 with an empty
payload gets "wrong size"; both leave the state unchanged. -/
theorem C5_tx_errors_atomic_witness :
    control_dispatch_one txState sampleConn2
        { type := ImsgType.IMSG_CTL_BEGIN, data := Payload.empty } =
      (txState, [Output.errmsg sampleConn2.fd "locked"]) ∧
    control_dispatch_one txState sampleConn
        { type := ImsgType.IMSG_CTL_COMMIT, data := Payload.empty } =
      (txState, [Output.errmsg sampleConn.fd "wrong size"]) := by
  refine ⟨?_, ?_⟩
  · exact (C5_tx_errors_atomic txState sampleConn2 Payload.empty).1 (by decide)
  · exact (C5_tx_errors_atomic txState sampleConn Payload.empty).2.2.2
      (by decide) (by decide)

/-- C9: Pause transitions to Paused, sends a Pause frame to the player
worker and broadcasts a Pause event exactly when the state is Playing;
when Stopped or Paused it changes nothing and sends nothing. -/
theorem C9_pause_only_when_playing (s : ServerState) (c : CtlConn) (d : Payload) :
    (s.play_state = PlayState.STATE_PLAYING →
      control_dispatch_one s c { type := ImsgType.IMSG_CTL_PAUSE, data := d } =
        ({ s with play_state := PlayState.STATE_PAUSED },
         Output.toPlayer PlayerMsg.IMSG_PAUSE ::
           control_notify { s with play_state := PlayState.STATE_PAUSED }
             ImsgType.IMSG_CTL_PAUSE)) ∧
    (s.play_state ≠ PlayState.STATE_PLAYING →
      control_dispatch_one s c { type := ImsgType.IMSG_CTL_PAUSE, data := d } =
        (s, [])) := by
  refine ⟨fun h => ?_, fun h => ?_⟩
  · simp [control_dispatch_one, h]
  · simp [control_dispatch_one, h]

/-- Witness for C9: from `sampleState` (Playing), Pause moves to Paused,
sends Pause to the worker and notifies the one monitoring connection;
from the resulting Paused state a second Pause does nothing. -/
theorem C9_pause_only_when_playing_witness :
    control_dispatch_one sampleState sampleConn
        { type := ImsgType.IMSG_CTL_PAUSE, data := Payload.empty } =
      ({ sampleState with play_state := PlayState.STATE_PAUSED },
       Output.toPlayer PlayerMsg.IMSG_PAUSE ::
         control_notify { sampleState with play_state := PlayState.STATE_PAUSED }
           ImsgType.IMSG_CTL_PAUSE) ∧
    control_dispatch_one { sampleState with play_state := PlayState.STATE_PAUSED }
        sampleConn { type := ImsgType.IMSG_CTL_PAUSE, data := Payload.empty } =
      ({ sampleState with play_state := PlayState.STATE_PAUSED }, []) := by
  refine ⟨?_, ?_⟩
  · exact (C9_pause_only_when_playing sampleState sampleConn Payload.empty).1 (by decide)
  · exact (C9_pause_only_when_playing
      { sampleState with play_state := PlayState.STATE_PAUSED }
      sampleConn Payload.empty).2 (by decide)

/-- C2: transactions are atomic for observers: an Add from the owner of
the open transaction appends to the scratch playlist only, leaving the
live playlist untouched and the Add invisible there; a Commit from the
owner with an offset-sized payload splices the entire scratch into the
live playlist through `playlist_swap` in a single step, resets the
transaction, composes a Commit-ack on the owner and broadcasts a Commit
event; and `playlist_swap` appends for a negative offset and replaces
from the index for a non-negative one. -/
theorem C2_transaction_atomic (s : ServerState) (c : CtlConn)
    (hopen : s.control.tx ≠ -1) (hown : s.control.tx = c.fd) :
    (∀ p : String,
      control_dispatch_one s c { type := ImsgType.IMSG_CTL_ADD, data := Payload.path p } =
        ({ s with control := { s.control with play := s.control.play ++ [p] } },
         [Output.reply c.fd ImsgType.IMSG_CTL_ADD (Payload.path p)])) ∧
    (∀ o : Int,
      control_dispatch_one s c { type := ImsgType.IMSG_CTL_COMMIT, data := Payload.off o } =
        ({ s with playlist := playlist_swap s.playlist s.control.play o,
                  control := { tx := -1, play := [] } },
         Output.reply c.fd ImsgType.IMSG_CTL_COMMIT Payload.empty ::
           control_notify
             { s with playlist := playlist_swap s.playlist s.control.play o,
                      control := { tx := -1, play := [] } }
             ImsgType.IMSG_CTL_COMMIT)) ∧
    (∀ (live scratch : List String) (o : Int),
      (o < 0 → playlist_swap live scratch o = live ++ scratch) ∧
      (0 ≤ o → playlist_swap live scratch o = live.take o.toNat ++ scratch)) := by
  have hfd : c.fd ≠ -1 := by rw [← hown]; exact hopen
  refine ⟨fun p => ?_, fun o => ?_, fun live scratch o => ⟨fun h => ?_, fun h => ?_⟩⟩
  · simp [control_dispatch_one, main_enqueue, hown, hfd]
  · simp [control_dispatch_one, hown]
  · simp [playlist_swap, h]
  · simp [playlist_swap, not_lt.mpr h]

/-- Witness for C2: with the transaction owned by fd 3 holding
["/x.ogg"], an Add of "/y.ogg" from fd 3 grows only the scratch, and a
Commit with offset −1 splices the scratch at the end of the live
playlist, resets the transaction, acks and broadcasts. -/
theorem C2_transaction_atomic_witness :
    control_dispatch_one txState sampleConn
        { type := ImsgType.IMSG_CTL_ADD, data := Payload.path "/y.ogg" } =
      ({ txState with control := { txState.control with
            play := txState.control.play ++ ["/y.ogg"] } },
       [Output.reply sampleConn.fd ImsgType.IMSG_CTL_ADD (Payload.path "/y.ogg")]) ∧
    control_dispatch_one txState sampleConn
        { type := ImsgType.IMSG_CTL_COMMIT, data := Payload.off (-1) } =
      ({ txState with playlist := playlist_swap txState.playlist txState.control.play (-1),
                      control := { tx := -1, play := [] } },
       Output.reply sampleConn.fd ImsgType.IMSG_CTL_COMMIT Payload.empty ::
         control_notify
           { txState with playlist := playlist_swap txState.playlist txState.control.play (-1),
                          control := { tx := -1, play := [] } }
           ImsgType.IMSG_CTL_COMMIT) ∧
    playlist_swap txState.playlist txState.control.play (-1) =
      txState.playlist ++ txState.control.play := by
  refine ⟨?_, ?_, ?_⟩
  · exact (C2_transaction_atomic txState sampleConn (by decide) (by decide)).1 "/y.ogg"
  · exact (C2_transaction_atomic txState sampleConn (by decide) (by decide)).2.1 (-1)
  · exact ((C2_transaction_atomic txState sampleConn (by decide) (by decide)).2.2
      txState.playlist txState.control.play (-1)).1 (by decide)

/-- C3: closing a connection that owns the open transaction aborts it —
scratch playlist freed, owner reset to the sentinel −1, connection
removed — while closing a connection that does not own it leaves the
transaction fields untouched; in every case `control_close` never
modifies the live playlist. -/
theorem C3_close_aborts_tx (s : ServerState) (fd : Int) (c : CtlConn)
    (hfound : control_connbyfd s.conns fd = some c) :
    (s.control.tx ≠ -1 → c.fd = s.control.tx →
      control_close s fd =
        { s with control := { tx := -1, play := [] },
                 conns := s.conns.eraseP (fun x => x.fd = fd) }) ∧
    (s.control.tx = -1 ∨ c.fd ≠ s.control.tx →
      control_close s fd = { s with conns := s.conns.eraseP (fun x => x.fd = fd) }) ∧
    (∀ (s2 : ServerState) (g : Int), (control_close s2 g).playlist = s2.playlist) := by
  refine ⟨fun h1 h2 => ?_, fun h => ?_, fun s2 g => ?_⟩
  · simp [control_close, hfound, playlist_free, h1, h2]
  · rcases h with h | h
    · simp [control_close, hfound, h]
    · simp [control_close, hfound, h]
  · unfold control_close
    cases hf : control_connbyfd s2.conns g with
    | none => rfl
    | some c2 =>
        dsimp only
        split <;> rfl

/-- Witness for C3: closing fd 3 (the owner) on `txState` drops the
scratch and resets the owner; closing fd 4 (not the owner) only removes
the connection. -/
theorem C3_close_aborts_tx_witness :
    control_close txState 3 =
      { txState with control := { tx := -1, play := [] },
                     conns := txState.conns.eraseP (fun x => x.fd = 3) } ∧
    control_close txState 4 =
      { txState with conns := txState.conns.eraseP (fun x => x.fd = 4) } := by
  refine ⟨?_, ?_⟩
  · exact (C3_close_aborts_tx txState 3 sampleConn (by decide)).1 (by decide) (by decide)
  · exact (C3_close_aborts_tx txState 4 sampleConn2 (by decide)).2.1 (Or.inr (by decide))

/-- C6: the Mode command merges each of the three fields independently
through `new_mode`; the merge rule keeps the value on Leave
(MODE_UNDEF), forces 1 on Set, forces 0 on Unset and flips on Toggle; an
all-Leave request changes nothing; and after the merge a mode-change
broadcast is composed for the monitors. -/
theorem C6_mode_merge (s : ServerState) (c : CtlConn) (md : PlayerMode) :
    control_dispatch_one s c { type := ImsgType.IMSG_CTL_MODE, data := Payload.mode md } =
      ({ s with consume := new_mode s.consume md.consume,
                repeat_all := new_mode s.repeat_all md.repeat_all,
                repeat_one := new_mode s.repeat_one md.repeat_one },
       control_notify
         { s with consume := new_mode s.consume md.consume,
                  repeat_all := new_mode s.repeat_all md.repeat_all,
                  repeat_one := new_mode s.repeat_one md.repeat_one }
         ImsgType.IMSG_CTL_MODE) ∧
    (∀ v : Int,
      new_mode v MODE_UNDEF = v ∧
      new_mode v MODE_TOGGLE = cnot v ∧
      new_mode v 1 = 1 ∧
      new_mode v 0 = 0) ∧
    (md.repeat_one = MODE_UNDEF → md.repeat_all = MODE_UNDEF → md.consume = MODE_UNDEF →
      control_dispatch_one s c { type := ImsgType.IMSG_CTL_MODE, data := Payload.mode md } =
        (s, control_notify s ImsgType.IMSG_CTL_MODE)) := by
  refine ⟨?_, fun v => ⟨?_, ?_, ?_, ?_⟩, fun h1 h2 h3 => ?_⟩
  · simp [control_dispatch_one]
  · simp [new_mode, MODE_UNDEF]
  · simp [new_mode, MODE_UNDEF, MODE_TOGGLE]
  · simp [new_mode, MODE_UNDEF, MODE_TOGGLE, cbool]
  · simp [new_mode, MODE_UNDEF, MODE_TOGGLE, cbool]
  · simp [control_dispatch_one, h1, h2, h3, new_mode, MODE_UNDEF]

/-- Witness for C6: an all-Leave request on `sampleState` leaves the
modes unchanged while still broadcasting. -/
theorem C6_mode_merge_witness :
    control_dispatch_one sampleState sampleConn
        { type := ImsgType.IMSG_CTL_MODE,
          data := Payload.mode { repeat_one := -1, repeat_all := -1, consume := -1 } } =
      (sampleState, control_notify sampleState ImsgType.IMSG_CTL_MODE) :=
  (C6_mode_merge sampleState sampleConn
      { repeat_one := -1, repeat_all := -1, consume := -1 }).2.2
    (by decide) (by decide) (by decide)

/-- C8: when accept fails with ENFILE/EMFILE, `control_accept` detaches
the listening fd from the readable set and arms a 1-second one-shot
timer with the `enable_accept` handler; no frame is composed on any
client and the connection table is untouched; firing the armed timer
re-attaches the listening fd, so it is not left permanently detached. -/
theorem C8_accept_backpressure (csfd : Int) (st : EvState) (conns : List CtlConn) :
    csfd ∉ (control_accept csfd st conns AcceptResult.ENFILE_EMFILE).1.registered ∧
    (control_accept csfd st conns AcceptResult.ENFILE_EMFILE).1.timer =
      some (1, 0, THandler.enableAcceptH) ∧
    (control_accept csfd st conns AcceptResult.ENFILE_EMFILE).2.1 = conns ∧
    (control_accept csfd st conns AcceptResult.ENFILE_EMFILE).2.2 = [] ∧
    csfd ∈ (ev_timer_fire csfd
      (control_accept csfd st conns AcceptResult.ENFILE_EMFILE).1).registered := by
  have hdel : csfd ∉ (ev_del st csfd).registered := by
    simp [ev_del, List.mem_filter]
  refine ⟨?_, rfl, rfl, rfl, ?_⟩
  · simpa [control_accept, ev_timer_set] using hdel
  · simp only [control_accept, ev_timer_fire, ev_timer_set, enable_accept, ev_add]
    simp only [ev_timer_set] at hdel ⊢
    simp [hdel]

/-- Witness for C8 at a concrete event-core state: listening fd 5,
registered, one client fd 7; the ENFILE path detaches 5, arms the
1-second `enable_accept` timer, sends nothing, and the timer firing
re-attaches 5. -/
theorem C8_accept_backpressure_witness :
    (5 : Int) ∉ (control_accept 5 { registered := [5, 7], timer := none } [sampleConn]
      AcceptResult.ENFILE_EMFILE).1.registered ∧
    (control_accept 5 { registered := [5, 7], timer := none } [sampleConn]
      AcceptResult.ENFILE_EMFILE).1.timer = some (1, 0, THandler.enableAcceptH) ∧
    (control_accept 5 { registered := [5, 7], timer := none } [sampleConn]
      AcceptResult.ENFILE_EMFILE).2.2 = [] ∧
    (5 : Int) ∈ (ev_timer_fire 5 (control_accept 5 { registered := [5, 7], timer := none }
      [sampleConn] AcceptResult.ENFILE_EMFILE).1).registered := by
  have h := C8_accept_backpressure 5 { registered := [5, 7], timer := none } [sampleConn]
  exact ⟨h.1, h.2.1, h.2.2.2.1, h.2.2.2.2⟩

/-- Whether an output is a monitor notification enqueued on the given
fd. -/
def is_monitor_to (fd : Int) : Output → Bool
  | Output.monitorEvt f _ => f = fd
  | _ => false

/-- The monitor notifications an output list enqueues on the given fd. -/
def monitor_msgs_to (L : List Output) (fd : Int) : List Output :=
  L.filter (is_monitor_to fd)

lemma monitor_msgs_to_cons_evt_ne (f fd : Int) (ev : PlayerEvent) (L : List Output)
    (h : f ≠ fd) :
    monitor_msgs_to (Output.monitorEvt f ev :: L) fd = monitor_msgs_to L fd := by
  simp [monitor_msgs_to, List.filter_cons, is_monitor_to, h]

lemma monitor_msgs_to_cons_evt_eq (fd : Int) (ev : PlayerEvent) (L : List Output) :
    monitor_msgs_to (Output.monitorEvt fd ev :: L) fd =
      Output.monitorEvt fd ev :: monitor_msgs_to L fd := by
  simp [monitor_msgs_to, List.filter_cons, is_monitor_to]

lemma monitor_msgs_to_nil_of_not_mem (ev : PlayerEvent) :
    ∀ (l : List CtlConn) (fd : Int), fd ∉ l.map CtlConn.fd →
      monitor_msgs_to ((l.filter (fun x => x.monitor)).map
        (fun x => Output.monitorEvt x.fd ev)) fd = [] := by
  intro l
  induction l with
  | nil => intro fd _; rfl
  | cons a l ih =>
      intro fd h
      simp only [List.map_cons, List.mem_cons, not_or] at h
      obtain ⟨h1, h2⟩ := h
      cases hm : a.monitor with
      | true =>
          rw [List.filter_cons_of_pos (by simp [hm]), List.map_cons,
            monitor_msgs_to_cons_evt_ne a.fd fd ev _ (fun hh => h1 hh.symm)]
          exact ih fd h2
      | false =>
          rw [List.filter_cons_of_neg (by simp [hm])]
          exact ih fd h2

lemma monitor_msgs_to_of_mem (ev : PlayerEvent) :
    ∀ (l : List CtlConn) (c : CtlConn), (l.map CtlConn.fd).Nodup → c ∈ l →
      monitor_msgs_to ((l.filter (fun x => x.monitor)).map
        (fun x => Output.monitorEvt x.fd ev)) c.fd =
        if c.monitor then [Output.monitorEvt c.fd ev] else [] := by
  intro l
  induction l with
  | nil => intro c _ hc; cases hc
  | cons a l ih =>
      intro c hnd hc
      simp only [List.map_cons, List.nodup_cons] at hnd
      obtain ⟨ha, hnd'⟩ := hnd
      rcases List.mem_cons.mp hc with rfl | hc
      · cases hm : c.monitor with
        | true =>
            rw [List.filter_cons_of_pos (by simp [hm]), List.map_cons,
              monitor_msgs_to_cons_evt_eq,
              monitor_msgs_to_nil_of_not_mem ev l c.fd ha]
            simp
        | false =>
            rw [List.filter_cons_of_neg (by simp [hm]),
              monitor_msgs_to_nil_of_not_mem ev l c.fd ha]
            simp
      · have hfd : a.fd ≠ c.fd := by
          intro he
          exact ha (he ▸ List.mem_map_of_mem CtlConn.fd hc)
        cases hm : a.monitor with
        | true =>
            rw [List.filter_cons_of_pos (by simp [hm]), List.map_cons,
              monitor_msgs_to_cons_evt_ne a.fd c.fd ev _ hfd]
            exact ih c hnd' hc
        | false =>
            rw [List.filter_cons_of_neg (by simp [hm])]
            exact ih c hnd' hc

/-- C7: a broadcast with event type `t` enqueues exactly one monitor
message — carrying the event type, the current position and duration and
the three mode flags — on each connection whose monitor flag is set,
and enqueues nothing on the others; moreover every output of the
broadcast is such a message for some monitoring connection. -/
theorem C7_notify_exactly_monitors (s : ServerState) (t : ImsgType) (c : CtlConn)
    (hnd : (s.conns.map CtlConn.fd).Nodup) (hc : c ∈ s.conns) :
    monitor_msgs_to (control_notify s t) c.fd =
      (if c.monitor then [Output.monitorEvt c.fd (mk_player_event s t)] else []) ∧
    (∀ o ∈ control_notify s t, ∃ x, x ∈ s.conns ∧ x.monitor = true ∧
      o = Output.monitorEvt x.fd (mk_player_event s t)) := by
  constructor
  · have := monitor_msgs_to_of_mem (mk_player_event s t) s.conns c hnd hc
    simpa [control_notify] using this
  · intro o ho
    simp only [control_notify, List.mem_map, List.mem_filter] at ho
    obtain ⟨x, ⟨hx, hxm⟩, rfl⟩ := ho
    exact ⟨x, hx, by simpa using hxm, rfl⟩

/-- Witness for C7 on `sampleState`: the broadcast enqueues exactly one
monitor message on fd 4 (the monitoring connection) and none on fd 3. -/
theorem C7_notify_exactly_monitors_witness :
    monitor_msgs_to (control_notify sampleState ImsgType.IMSG_CTL_PAUSE) sampleConn2.fd =
      [Output.monitorEvt sampleConn2.fd
        (mk_player_event sampleState ImsgType.IMSG_CTL_PAUSE)] ∧
    monitor_msgs_to (control_notify sampleState ImsgType.IMSG_CTL_PAUSE) sampleConn.fd =
      [] := by
  constructor
  · have h := (C7_notify_exactly_monitors sampleState ImsgType.IMSG_CTL_PAUSE sampleConn2
      (by decide) (by decide)).1
    simpa using h
  · have h := (C7_notify_exactly_monitors sampleState ImsgType.IMSG_CTL_PAUSE sampleConn
      (by decide) (by decide)).1
    simpa using h

lemma eraseP_fd_all_gone (fd : Int) :
    ∀ (l : List CtlConn), (l.map CtlConn.fd).Nodup →
      ∀ x ∈ l.eraseP (fun y => y.fd = fd), x.fd ≠ fd := by
  intro l
  induction l with
  | nil => intro _ x hx; cases hx
  | cons a l ih =>
      intro hnd x hx
      simp only [List.map_cons, List.nodup_cons] at hnd
      obtain ⟨ha, hnd'⟩ := hnd
      by_cases he : a.fd = fd
      · rw [List.eraseP_cons_of_pos (by simpa using he)] at hx
        intro hxfd
        exact ha (by rw [he, ← hxfd]; exact List.mem_map_of_mem CtlConn.fd hx)
      · rw [List.eraseP_cons_of_neg (by simpa using he)] at hx
        rcases List.mem_cons.mp hx with rfl | hx
        · exact he
        · exact ih hnd' x hx

/-- C4 as stated is refuted by the code: a frame whose payload has the
wrong size does not close the offending connection. Dispatching a Mode
frame with a 5-byte payload on fd 3 of `sampleState` leaves the state —
the connection table included — unchanged, and so does a frame of
unknown type. -/
theorem C4_counterexample :
    control_dispatch_imsg sampleState 3
        (ReadEvent.frame { type := ImsgType.IMSG_CTL_MODE, data := Payload.other 5 }) =
      (sampleState, []) ∧
    control_dispatch_imsg sampleState 3
        (ReadEvent.frame { type := ImsgType.OTHER 99, data := Payload.empty }) =
      (sampleState, []) ∧
    sampleConn ∈ sampleState.conns ∧ sampleConn.fd = 3 := by
  refine ⟨?_, ?_, by decide, rfl⟩ <;> rfl

/-- C4 amended: a malformed frame (a failed read, or a framing failure
from imsg_get) closes the offending connection — the dispatcher runs
`control_close`, after which no connection with that fd remains — while
a payload of the wrong size or a message of unknown type leaves the
connection open: the frame is dropped, silently for Mode and unknown
types, with a "wrong size" Error reply for Seek; none of these paths is
fatal to the daemon (each is a total step returning a successor state). -/
theorem C4_amended_protocol_errors (s : ServerState) (fd : Int) (c : CtlConn)
    (hnd : (s.conns.map CtlConn.fd).Nodup)
    (hfound : control_connbyfd s.conns fd = some c) :
    (control_dispatch_imsg s fd ReadEvent.readFailed = (control_close s fd, []) ∧
     control_dispatch_imsg s fd ReadEvent.malformed = (control_close s fd, []) ∧
     ∀ x ∈ (control_close s fd).conns, x.fd ≠ fd) ∧
    (∀ n : Nat,
      control_dispatch_imsg s fd
          (ReadEvent.frame { type := ImsgType.IMSG_CTL_MODE, data := Payload.other n }) =
        (s, []) ∧
      control_dispatch_imsg s fd
          (ReadEvent.frame { type := ImsgType.IMSG_CTL_SEEK, data := Payload.other n }) =
        (s, [Output.errmsg c.fd "wrong size"]) ∧
      control_dispatch_imsg s fd
          (ReadEvent.frame { type := ImsgType.OTHER n, data := Payload.empty }) =
        (s, [])) := by
  have hconns : (control_close s fd).conns = s.conns.eraseP (fun x => x.fd = fd) := by
    unfold control_close
    rw [hfound]
    dsimp only
    split <;> rfl
  refine ⟨⟨?_, ?_, ?_⟩, fun n => ⟨?_, ?_, ?_⟩⟩
  · simp [control_dispatch_imsg, hfound]
  · simp [control_dispatch_imsg, hfound]
  · intro x hx
    rw [hconns] at hx
    exact eraseP_fd_all_gone fd s.conns hnd x hx
  · simp [control_dispatch_imsg, hfound, control_dispatch_one]
  · simp [control_dispatch_imsg, hfound, control_dispatch_one, main_senderr]
  · simp [control_dispatch_imsg, hfound, control_dispatch_one]

/-- Witness for the amended C4 on `sampleState` and fd 3: a read failure
runs `control_close`, a wrong-size Mode frame and an unknown type change
nothing, and a wrong-size Seek frame earns a "wrong size" error. -/
theorem C4_amended_protocol_errors_witness :
    control_dispatch_imsg sampleState 3 ReadEvent.readFailed =
      (control_close sampleState 3, []) ∧
    control_dispatch_imsg sampleState 3
        (ReadEvent.frame { type := ImsgType.IMSG_CTL_MODE, data := Payload.other 7 }) =
      (sampleState, []) ∧
    control_dispatch_imsg sampleState 3
        (ReadEvent.frame { type := ImsgType.IMSG_CTL_SEEK, data := Payload.other 7 }) =
      (sampleState, [Output.errmsg sampleConn.fd "wrong size"]) := by
  have h := C4_amended_protocol_errors sampleState 3 sampleConn (by decide) (by decide)
  exact ⟨h.1.1, (h.2 7).1, (h.2 7).2.1⟩

end Amused
